import Mathlib

/-!
Verification of the letter print-run batching and reconciliation pipeline of a
government notification platform.

The development shallowly embeds the components of the pipeline:
the batch grouper, the print-run cutoff scheduler, the eligible-letter
listing, the provider credential client, the callback reconciliation engine,
the outbound acknowledgement audit and the stuck-letter check.  Strings are
modelled as `List Char` so that every definition evaluates inside the kernel.
-/

/-- Text modelled as a list of characters; string literals enter via `.data`. -/
abbrev Str := List Char

/-- ASCII lower-casing of a single character, as applied by `str.lower()`. -/
def lowerChar (c : Char) : Char :=
  if 'A' ≤ c ∧ c ≤ 'Z' then Char.ofNat (c.toNat + 32) else c

/-- ASCII upper-casing of a single character, as applied by `str.upper()`. -/
def upperChar (c : Char) : Char :=
  if 'a' ≤ c ∧ c ≤ 'z' then Char.ofNat (c.toNat - 32) else c

/-- Whether `s` ends with the suffix `suf`. -/
def hasSuffix (suf s : Str) : Bool :=
  decide (s.drop (s.length - suf.length) = suf) && decide (suf.length ≤ s.length)

/-- Remove a trailing occurrence of `suf` from `s`, if present. -/
def stripSuffix (suf s : Str) : Str :=
  if hasSuffix suf s then s.take (s.length - suf.length) else s

/-- The last `/`-separated component of a path, as `key.split("/")[-1]`. -/
def lastComponent (s : Str) : Str :=
  (s.splitOn '/').getLastD []

/-- Remove every leading character of `s` contained in the character set `cs`,
the semantics of the Python `str.lstrip` with a string argument. -/
def lstripChars (cs s : Str) : Str :=
  s.dropWhile (fun c => cs.contains c)

/-! ## Batch Grouper -/

/-- One rendered letter PDF ready for print, as listed from the blob store:
storage key, size in bytes and owning service/organisation. -/
structure LetterPdf where
  Key : Str
  Size : Nat
  ServiceId : Str
  OrganisationId : Str
deriving DecidableEq, Repr

/-- Whether a storage key names a PDF, by suffix, case-insensitively. -/
def isPdfKey (key : Str) : Bool :=
  hasSuffix ".pdf".data (key.map lowerChar)

/-- Cumulative size in bytes of a batch of letters. -/
def batchSize (batch : List LetterPdf) : Nat :=
  (batch.map (·.Size)).sum

/-- Modelled from the spec: the loop body of the batch grouper
(`group_letters` of the letters-PDF task module, absent from the sources).
It iterates the already-filtered items in input order keeping an accumulator;
when the accumulator is non-empty and either adding the item would exceed
`maxBytes` or the accumulator already holds `maxCount` items, the current
batch is sealed and a fresh one is started with the item; at the end of the
input a non-empty accumulator is emitted. -/
def group_letters_go (maxBytes maxCount : Nat) :
    List LetterPdf → List LetterPdf → List (List LetterPdf)
  | acc, [] => if acc = [] then [] else [acc]
  | acc, l :: rest =>
    if acc ≠ [] ∧ (maxBytes < batchSize acc + l.Size ∨ acc.length = maxCount) then
      acc :: group_letters_go maxBytes maxCount [l] rest
    else
      group_letters_go maxBytes maxCount (acc ++ [l]) rest

/-- Modelled from the spec: `group_letters` — filter the incoming records to
those whose key ends in `.pdf` case-insensitively, then group them into
batches bounded by cumulative size `maxBytes` and count `maxCount`. -/
def group_letters (maxBytes maxCount : Nat) (letter_pdfs : List LetterPdf) :
    List (List LetterPdf) :=
  group_letters_go maxBytes maxCount [] (letter_pdfs.filter (fun l => isPdfKey l.Key))

/-- A sealed batch is non-empty, holds at most `maxCount` items, and its
cumulative size is at most `maxBytes` unless it is a singleton. -/
def BatchOk (maxBytes maxCount : Nat) (b : List LetterPdf) : Prop :=
  b ≠ [] ∧ b.length ≤ maxCount ∧ (b.length = 1 ∨ batchSize b ≤ maxBytes)

lemma batchSize_append (a b : List LetterPdf) :
    batchSize (a ++ b) = batchSize a + batchSize b := by
  simp [batchSize]

lemma group_letters_go_spec (mB mC : Nat) (hC : 0 < mC) :
    ∀ (rest acc : List LetterPdf),
      acc.length ≤ mC → (acc.length ≤ 1 ∨ batchSize acc ≤ mB) →
      (∀ b ∈ group_letters_go mB mC acc rest, BatchOk mB mC b) ∧
      (group_letters_go mB mC acc rest).flatten = acc ++ rest := by
  intro rest
  induction rest with
  | nil =>
    intro acc hlen hsz
    by_cases hacc : acc = []
    · subst hacc
      simp [group_letters_go]
    · refine ⟨?_, ?_⟩
      · intro b hb
        simp only [group_letters_go, if_neg hacc, List.mem_singleton] at hb
        subst hb
        refine ⟨hacc, hlen, ?_⟩
        rcases hsz with h1 | h2
        · exact Or.inl (Nat.le_antisymm h1 (List.length_pos.mpr hacc))
        · exact Or.inr h2
      · simp [group_letters_go, if_neg hacc]
  | cons l rest ih =>
    intro acc hlen hsz
    by_cases hcond : acc ≠ [] ∧ (mB < batchSize acc + l.Size ∨ acc.length = mC)
    · have hstep := ih [l] (by simpa using hC) (by simp)
      constructor
      · intro b hb
        simp only [group_letters_go, if_pos hcond, List.mem_cons] at hb
        rcases hb with hb | hb
        · subst hb
          refine ⟨hcond.1, hlen, ?_⟩
          rcases hsz with h1 | h2
          · exact Or.inl (Nat.le_antisymm h1 (List.length_pos.mpr hcond.1))
          · exact Or.inr h2
        · exact hstep.1 b hb
      · simp [group_letters_go, if_pos hcond, hstep.2]
    · have hsz' : batchSize (acc ++ [l]) ≤ mB ∨ acc = [] := by
        by_cases hacc : acc = []
        · exact Or.inr hacc
        · push_neg at hcond
          have := (hcond hacc).1
          left
          rw [batchSize_append]
          simpa [batchSize] using this
      have hlen' : (acc ++ [l]).length ≤ mC := by
        by_cases hacc : acc = []
        · subst hacc; simpa using hC
        · push_neg at hcond
          have hne := (hcond hacc).2
          have : acc.length < mC := lt_of_le_of_ne hlen hne
          simpa using this
      have hstep := ih (acc ++ [l]) hlen' (by
        rcases hsz' with h | h
        · exact Or.inr h
        · subst h; simp)
      constructor
      · intro b hb
        simp only [group_letters_go, if_neg hcond] at hb
        exact hstep.1 b hb
      · simp [group_letters_go, if_neg hcond, hstep.2]

/-- Claim C1: for every input sequence of letter records and positive
`maxBytes` and `maxCount`, `group_letters` yields batches whose cumulative
size is at most `maxBytes` unless the batch is a singleton (an oversized item
is always alone), whose count is at most `maxCount`; the concatenation of the
batches is exactly the input items whose key ends in `.pdf` case-insensitively
in input order; and an item landing exactly on `maxBytes` is included in the
current batch, which closes after it (before the next positive-size item),
not before it. -/
theorem group_letters_correct (mB mC : Nat) (hB : 0 < mB) (hC : 0 < mC)
    (letters : List LetterPdf) :
    (∀ b ∈ group_letters mB mC letters,
        b.length ≤ mC ∧ (b.length = 1 ∨ batchSize b ≤ mB) ∧
        ∀ l ∈ b, mB < l.Size → b.length = 1) ∧
    (group_letters mB mC letters).flatten = letters.filter (fun l => isPdfKey l.Key) ∧
    (∀ acc l rest, acc ≠ [] → acc.length ≠ mC → batchSize acc + l.Size = mB →
        group_letters_go mB mC acc (l :: rest) =
          group_letters_go mB mC (acc ++ [l]) rest) ∧
    (∀ acc l l' rest, acc ≠ [] → acc.length ≠ mC → batchSize acc + l.Size = mB →
        0 < l'.Size →
        group_letters_go mB mC acc (l :: l' :: rest) =
          (acc ++ [l]) :: group_letters_go mB mC [l'] rest) := by
  have hmain := group_letters_go_spec mB mC hC
    (letters.filter (fun l => isPdfKey l.Key)) [] (by simp) (by simp)
  refine ⟨?_, ?_, ?_, ?_⟩
  · intro b hb
    obtain ⟨hne, hlen, hsz⟩ := hmain.1 b hb
    refine ⟨hlen, hsz, ?_⟩
    intro l hl hover
    rcases hsz with h1 | h2
    · exact h1
    · exfalso
      have : l.Size ≤ batchSize b :=
        List.single_le_sum (fun x _ => Nat.zero_le x) _ (List.mem_map_of_mem (·.Size) hl)
      omega
  · simpa [group_letters] using hmain.2
  · intro acc l rest hne hcount hexact
    have hnc : ¬(acc ≠ [] ∧ (mB < batchSize acc + l.Size ∨ acc.length = mC)) := by
      push_neg
      intro _
      constructor
      · omega
      · exact hcount
    simp [group_letters_go, if_neg hnc]
  · intro acc l l' rest hne hcount hexact hpos
    have hnc : ¬(acc ≠ [] ∧ (mB < batchSize acc + l.Size ∨ acc.length = mC)) := by
      push_neg
      intro _
      constructor
      · omega
      · exact hcount
    have hc2 : (acc ++ [l]) ≠ [] ∧
        (mB < batchSize (acc ++ [l]) + l'.Size ∨ (acc ++ [l]).length = mC) := by
      refine ⟨by simp, Or.inl ?_⟩
      rw [batchSize_append]
      have h1 : batchSize [l] = l.Size := by simp [batchSize]
      rw [h1]
      omega
    rw [group_letters_go, if_neg hnc, group_letters_go, if_pos hc2]

/-- Concrete letter records with the sizes used in the grouping examples of
the spec and the repository tests: sizes 1, 2, 3, 1, 1, 5, 6, 1, 1. -/
def lettersSizeExample : List LetterPdf :=
  [⟨"A.pdf".data, 1, "123".data, []⟩, ⟨"B.pdf".data, 2, "123".data, []⟩,
   ⟨"C.pdf".data, 3, "123".data, []⟩, ⟨"D.pdf".data, 1, "123".data, []⟩,
   ⟨"E.pdf".data, 1, "123".data, []⟩, ⟨"F.pdf".data, 5, "123".data, []⟩,
   ⟨"G.pdf".data, 6, "123".data, []⟩, ⟨"H.pdf".data, 1, "123".data, []⟩,
   ⟨"I.pdf".data, 1, "123".data, []⟩]

/-- Witness for claim C1 at `maxBytes = 5`, `maxCount = 3` on the concrete
size-example records. -/
theorem group_letters_correct_witness :
    0 < 5 ∧ 0 < 3 ∧
    (group_letters 5 3 lettersSizeExample).flatten =
      lettersSizeExample.filter (fun l => isPdfKey l.Key) :=
  ⟨by decide, by decide,
    (group_letters_correct 5 3 (by decide) (by decide) lettersSizeExample).2.1⟩

/-- Claim C7 fails as stated: on the item sizes of the size-only example
(1, 2, 3, 1, 1, 5, 6, 1, 1) with `maxBytes = 5` and `maxCount = 3`,
`group_letters` yields batches of sizes [1,2], [3,1,1], [5], [6], [1,1] —
the oversized item 6 is batched alone — and not the claimed
[1,2], [3,1,1], [5], [1,1,1], [1]. -/
theorem group_letters_size_count_example_refuted :
    (group_letters 5 3 lettersSizeExample).map (fun b => b.map (·.Size)) ≠
      [[1, 2], [3, 1, 1], [5], [1, 1, 1], [1]] := by
  decide

/-- Concrete letter records with the sizes of the repository's combined
size-and-count grouping test: sizes 1, 2, 3, 1, 1, 5, 1, 1, 1, 1. -/
def lettersSizeCountExample : List LetterPdf :=
  [⟨"A.pdf".data, 1, "123".data, []⟩, ⟨"B.pdf".data, 2, "123".data, []⟩,
   ⟨"C.pdf".data, 3, "123".data, []⟩, ⟨"D.pdf".data, 1, "123".data, []⟩,
   ⟨"E.pdf".data, 1, "123".data, []⟩, ⟨"F.pdf".data, 5, "123".data, []⟩,
   ⟨"G.pdf".data, 1, "123".data, []⟩, ⟨"H.pdf".data, 1, "123".data, []⟩,
   ⟨"I.pdf".data, 1, "123".data, []⟩, ⟨"J.pdf".data, 1, "123".data, []⟩]

/-- Claim C7 as amended: on item sizes 1, 2, 3, 1, 1, 5, 1, 1, 1, 1 (the
sizes of the repository's combined-bound test) with `maxBytes = 5` and
`maxCount = 3`, `group_letters` yields batches of sizes
[1,2], [3,1,1], [5], [1,1,1], [1]; the count limit seals the [1,1,1] batch
before the size limit would. -/
theorem group_letters_size_count_example :
    (group_letters 5 3 lettersSizeCountExample).map (fun b => b.map (·.Size)) =
      [[1, 2], [3, 1, 1], [5], [1, 1, 1], [1]] := by
  decide

/-! ## Print-Run Cutoff Scheduler -/

/-- Seconds in one civil day. -/
def secondsPerDay : Nat := 86400

/-- Earliest local civil time of day (in seconds) of the collation window,
17:50:00. -/
def collateWindowEarliestLocal : Nat := 17 * 3600 + 50 * 60

/-- Exclusive upper bound of the collation window in local civil time,
18:50:00 (the window runs 17:50–18:49). -/
def collateWindowLatestLocal : Nat := 18 * 3600 + 50 * 60

/-- The daily print-run deadline in local civil time, 17:30:00; the cutoff
passed to collation is this instant of the current local day, in UTC. -/
def printRunDeadlineLocal : Nat := 17 * 3600 + 30 * 60

/-- Whether a local time of day falls inside the collation window. -/
def inCollateWindow (tod : Nat) : Prop :=
  collateWindowEarliestLocal ≤ tod ∧ tod < collateWindowLatestLocal

instance (tod : Nat) : Decidable (inCollateWindow tod) := by
  unfold inCollateWindow; infer_instance

/-- Outcome of one scheduler poll: the UTC cutoff submitted to the collation
task, if any, and whether the ignoring-outside-window notice was logged. -/
structure CollateCheck where
  submittedCutoffUtc : Option Nat
  loggedIgnore : Bool
deriving DecidableEq, Repr

/-- Modelled from the spec: `check_time_to_collate_letters` of the
letters-PDF task module (absent from the sources).  `nowUtc` is the poll
instant in seconds, `offset` the local civil-time offset from UTC in seconds
(0 during GMT, 3600 during BST).  Outside the window it logs and exits
without side effects and without throwing; inside it submits the collation
task once with the most recent window-aligned cutoff at or before now,
expressed in UTC. -/
def check_time_to_collate_letters (nowUtc offset : Nat) : CollateCheck :=
  if inCollateWindow ((nowUtc + offset) % secondsPerDay) then
    { submittedCutoffUtc :=
        some (nowUtc + offset - (nowUtc + offset) % secondsPerDay
                + printRunDeadlineLocal - offset),
      loggedIgnore := false }
  else
    { submittedCutoffUtc := none, loggedIgnore := true }

/-- Claim C5: outside the window the scheduler submits nothing and logs the
ignore notice (and, being a total function, raises nothing); inside the
window it submits exactly one cutoff, the most recent window-aligned instant
at or before now expressed in UTC; and the boundary instants behave as the
spec lists them: during GMT 16:50 and 17:49:30 UTC are outside while 17:50
and 18:49 UTC are inside with cutoff 17:30 UTC, and during BST 17:50 UTC is
outside while 16:50 UTC is inside with cutoff 16:30 UTC. -/
theorem check_time_to_collate_letters_correct (nowUtc offset : Nat)
    (hoff : offset = 0 ∨ offset = 3600) :
    (¬ inCollateWindow ((nowUtc + offset) % secondsPerDay) →
        check_time_to_collate_letters nowUtc offset = ⟨none, true⟩) ∧
    (inCollateWindow ((nowUtc + offset) % secondsPerDay) →
        ∃ c, check_time_to_collate_letters nowUtc offset = ⟨some c, false⟩ ∧
          c ≤ nowUtc ∧
          (c + offset) % secondsPerDay = printRunDeadlineLocal ∧
          (c + offset) / secondsPerDay = (nowUtc + offset) / secondsPerDay ∧
          ∀ c', (c' + offset) % secondsPerDay = printRunDeadlineLocal →
            c' ≤ nowUtc → c' ≤ c) ∧
    (∀ d, check_time_to_collate_letters (d * 86400 + 16 * 3600 + 50 * 60) 0 =
        ⟨none, true⟩) ∧
    (∀ d, check_time_to_collate_letters (d * 86400 + 17 * 3600 + 49 * 60 + 30) 0 =
        ⟨none, true⟩) ∧
    (∀ d, check_time_to_collate_letters (d * 86400 + 17 * 3600 + 50 * 60) 0 =
        ⟨some (d * 86400 + 17 * 3600 + 30 * 60), false⟩) ∧
    (∀ d, check_time_to_collate_letters (d * 86400 + 18 * 3600 + 49 * 60) 0 =
        ⟨some (d * 86400 + 17 * 3600 + 30 * 60), false⟩) ∧
    (∀ d, check_time_to_collate_letters (d * 86400 + 16 * 3600 + 50 * 60) 3600 =
        ⟨some (d * 86400 + 16 * 3600 + 30 * 60), false⟩) ∧
    (∀ d, check_time_to_collate_letters (d * 86400 + 17 * 3600 + 50 * 60) 3600 =
        ⟨none, true⟩) := by
  have hwin : ∀ t : Nat, inCollateWindow t ↔ 64200 ≤ t ∧ t < 67800 := by
    intro t
    simp [inCollateWindow, collateWindowEarliestLocal, collateWindowLatestLocal]
  refine ⟨?_, ?_, ?_, ?_, ?_, ?_, ?_, ?_⟩
  · intro h
    simp [check_time_to_collate_letters, if_neg h]
  · intro h
    refine ⟨nowUtc + offset - (nowUtc + offset) % secondsPerDay
        + printRunDeadlineLocal - offset, ?_, ?_, ?_, ?_, ?_⟩
    · simp [check_time_to_collate_letters, if_pos h]
    · rw [hwin] at h
      simp only [secondsPerDay, printRunDeadlineLocal] at *
      omega
    · rw [hwin] at h
      simp only [secondsPerDay, printRunDeadlineLocal] at *
      omega
    · rw [hwin] at h
      simp only [secondsPerDay, printRunDeadlineLocal] at *
      omega
    · intro c' hc' hle
      rw [hwin] at h
      simp only [secondsPerDay, printRunDeadlineLocal] at *
      omega
  · intro d
    have : ¬ inCollateWindow ((d * 86400 + 16 * 3600 + 50 * 60 + 0) % secondsPerDay) := by
      rw [hwin]; simp only [secondsPerDay]; omega
    simp [check_time_to_collate_letters, if_neg this]
  · intro d
    have : ¬ inCollateWindow ((d * 86400 + 17 * 3600 + 49 * 60 + 30 + 0) % secondsPerDay) := by
      rw [hwin]; simp only [secondsPerDay]; omega
    simp [check_time_to_collate_letters, if_neg this]
  · intro d
    have h : inCollateWindow ((d * 86400 + 17 * 3600 + 50 * 60 + 0) % secondsPerDay) := by
      rw [hwin]; simp only [secondsPerDay]; omega
    simp only [check_time_to_collate_letters, if_pos h]
    refine congrArg₂ _ (congrArg _ ?_) rfl
    simp only [secondsPerDay, printRunDeadlineLocal]
    omega
  · intro d
    have h : inCollateWindow ((d * 86400 + 18 * 3600 + 49 * 60 + 0) % secondsPerDay) := by
      rw [hwin]; simp only [secondsPerDay]; omega
    simp only [check_time_to_collate_letters, if_pos h]
    refine congrArg₂ _ (congrArg _ ?_) rfl
    simp only [secondsPerDay, printRunDeadlineLocal]
    omega
  · intro d
    have h : inCollateWindow ((d * 86400 + 16 * 3600 + 50 * 60 + 3600) % secondsPerDay) := by
      rw [hwin]; simp only [secondsPerDay]; omega
    simp only [check_time_to_collate_letters, if_pos h]
    refine congrArg₂ _ (congrArg _ ?_) rfl
    simp only [secondsPerDay, printRunDeadlineLocal]
    omega
  · intro d
    have : ¬ inCollateWindow ((d * 86400 + 17 * 3600 + 50 * 60 + 3600) % secondsPerDay) := by
      rw [hwin]; simp only [secondsPerDay]; omega
    simp [check_time_to_collate_letters, if_neg this]

/-- Witness for claim C5 at a concrete GMT poll instant inside the window:
day 10, 17:50:00 UTC with offset 0, whose submitted cutoff is 17:30:00 UTC. -/
theorem check_time_to_collate_letters_correct_witness :
    ((0 : Nat) = 0 ∨ (0 : Nat) = 3600) ∧
    check_time_to_collate_letters (10 * 86400 + 17 * 3600 + 50 * 60) 0 =
      ⟨some (10 * 86400 + 17 * 3600 + 30 * 60), false⟩ :=
  ⟨Or.inl rfl,
    (check_time_to_collate_letters_correct (10 * 86400 + 17 * 3600 + 50 * 60) 0
      (Or.inl rfl)).2.2.2.2.1 10⟩

/-! ## Eligible-letter listing -/

/-- Internal notification statuses relevant to the letter pipeline. -/
inductive NotificationStatus
  | created
  | pendingVirusCheck
  | sending
  | delivered
  | validationFailed
  | virusScanFailed
  | technicalFailure
  | cancelled
  | returnedLetter
deriving DecidableEq, Repr

/-- API key types; test-key notifications are never sent to print. -/
inductive KeyType
  | normal
  | team
  | test
deriving DecidableEq, Repr

/-- Postage classes of physical mail. -/
inductive Postage
  | first
  | second
  | europe
  | restOfWorld
deriving DecidableEq, Repr

/-- The letter-relevant view of a notification row used by the listing:
its rendered PDF's storage key (which begins with its per-day folder),
creation instant, status, key type, postage and owners. -/
structure LetterNotification where
  key : Str
  createdAt : Nat
  status : NotificationStatus
  keyType : KeyType
  postage : Postage
  serviceId : Str
  organisationId : Str
deriving DecidableEq, Repr

/-- The per-day folder of a storage key: its leading path component. -/
def folderOf (key : Str) : Str :=
  key.takeWhile (fun c => c ≠ '/')

/-- The ordering the spec claims for the listing, following the spec's
words — oldest folder first, then lexicographic key order.  It is kept only
to compare the claimed order with the program's: the repository tests show
the program does not order its output this way. -/
def claimedKeyOrder (k1 k2 : Str) : Prop :=
  folderOf k1 < folderOf k2 ∨ (folderOf k1 = folderOf k2 ∧ k1 ≤ k2)

instance : DecidableRel claimedKeyOrder := by
  unfold claimedKeyOrder; infer_instance

/-- The listing order the program actually uses, fixed by the repository
tests (the candidate query orders by service id, then organisation id, then
creation time, oldest first). -/
def letterListingOrder (a b : LetterNotification) : Prop :=
  a.serviceId < b.serviceId ∨
    (a.serviceId = b.serviceId ∧
      (a.organisationId < b.organisationId ∨
        (a.organisationId = b.organisationId ∧ a.createdAt ≤ b.createdAt)))

instance : DecidableRel letterListingOrder := by
  unfold letterListingOrder; infer_instance

instance : IsTotal LetterNotification letterListingOrder := by
  constructor
  intro a b
  rcases lt_trichotomy a.serviceId b.serviceId with h | h | h
  · exact Or.inl (Or.inl h)
  · rcases lt_trichotomy a.organisationId b.organisationId with h' | h' | h'
    · exact Or.inl (Or.inr ⟨h, Or.inl h'⟩)
    · rcases le_total a.createdAt b.createdAt with h'' | h''
      · exact Or.inl (Or.inr ⟨h, Or.inr ⟨h', h''⟩⟩)
      · exact Or.inr (Or.inr ⟨h.symm, Or.inr ⟨h'.symm, h''⟩⟩)
    · exact Or.inr (Or.inr ⟨h.symm, Or.inl h'⟩)
  · exact Or.inr (Or.inl h)

instance : IsTrans LetterNotification letterListingOrder := by
  constructor
  intro a b c hab hbc
  rcases hab with h1 | ⟨e1, h1⟩
  · rcases hbc with h2 | ⟨e2, _⟩
    · exact Or.inl (lt_trans h1 h2)
    · exact Or.inl (e2 ▸ h1)
  · rcases hbc with h2 | ⟨e2, h2⟩
    · exact Or.inl (e1 ▸ h2)
    · refine Or.inr ⟨e1.trans e2, ?_⟩
      rcases h1 with g1 | ⟨f1, g1⟩
      · rcases h2 with g2 | ⟨f2, _⟩
        · exact Or.inl (lt_trans g1 g2)
        · exact Or.inl (f2 ▸ g1)
      · rcases h2 with g2 | ⟨f2, g2⟩
        · exact Or.inl (f1 ▸ g2)
        · exact Or.inr ⟨f1.trans f2, le_trans g1 g2⟩

/-- The observable trace of the listing order on the returned records:
non-decreasing service id, and non-decreasing organisation id within one
service. -/
def serviceOrgOrder (r1 r2 : LetterPdf) : Prop :=
  r1.ServiceId < r2.ServiceId ∨
    (r1.ServiceId = r2.ServiceId ∧ r1.OrganisationId ≤ r2.OrganisationId)

/-- Modelled from the spec: eligibility of a candidate notification for the
print run — status `created`, non-test key type, the requested postage class,
and created at or before the per-day folder boundary derived from the cutoff
timestamp (here the cutoff instant itself). -/
def eligibleForPrint (cutoff : Nat) (postage : Postage) (n : LetterNotification) : Bool :=
  decide (n.status = NotificationStatus.created ∧ n.keyType ≠ KeyType.test ∧
    n.postage = postage ∧ n.createdAt ≤ cutoff)

/-- Modelled from the spec and its tests:
`get_key_and_size_of_letters_to_be_sent_to_print` of the letters-PDF task
module (absent from the sources).  It lists the eligible candidates in the
order of the candidate query — service id, then organisation id, then
creation time, oldest first, as the repository tests fix — resolves each
candidate's blob in the store, and yields a `LetterPdf` record per found
blob; a candidate whose blob is missing is logged (second component) and
skipped rather than failing the listing.  `blobSize` is the blob store
lookup. -/
def get_key_and_size_of_letters_to_be_sent_to_print (cutoff : Nat) (postage : Postage)
    (notifications : List LetterNotification) (blobSize : Str → Option Nat) :
    List LetterPdf × List Str :=
  let sortedEligible :=
    List.insertionSort letterListingOrder
      (notifications.filter (eligibleForPrint cutoff postage))
  (sortedEligible.filterMap
      (fun n => (blobSize n.key).map
        (fun sz => LetterPdf.mk n.key sz n.serviceId n.organisationId)),
   (sortedEligible.filter (fun n => blobSize n.key = none)).map (fun n => n.key))

/-- The three second-class candidates of the repository's listing test:
REF0 created at 16:00, REF1 at 15:00, REF2 two days earlier in the previous
folder, all in one service and organisation (creation instants as minutes,
cutoff 17:30 = 1050). -/
def printRunExampleNotifications : List LetterNotification :=
  [⟨"2020-02-17/NOTIFY.REF0.D.2.C.20200217160000.PDF".data, 960,
      NotificationStatus.created, KeyType.normal, Postage.second,
      "svc".data, "org".data⟩,
   ⟨"2020-02-17/NOTIFY.REF1.D.2.C.20200217150000.PDF".data, 900,
      NotificationStatus.created, KeyType.normal, Postage.second,
      "svc".data, "org".data⟩,
   ⟨"2020-02-16/NOTIFY.REF2.D.2.C.20200215180000.PDF".data, 100,
      NotificationStatus.created, KeyType.normal, Postage.second,
      "svc".data, "org".data⟩]

/-- The blob store of the repository's listing test: the three PDFs with
sizes 1, 2 and 3. -/
def printRunExampleBlob : Str → Option Nat :=
  fun k =>
    if k = "2020-02-17/NOTIFY.REF0.D.2.C.20200217160000.PDF".data then some 1
    else if k = "2020-02-17/NOTIFY.REF1.D.2.C.20200217150000.PDF".data then some 2
    else if k = "2020-02-16/NOTIFY.REF2.D.2.C.20200215180000.PDF".data then some 3
    else none

/-- Claim C6 fails as stated: on the listing test's own data the listing
returns REF2, then REF1 (created 15:00), then REF0 (created 16:00) —
creation-time order, exactly as the repository test expects — which places
REF1 before REF0 although REF0's key sorts lexicographically first within
the same folder, so the output is not in oldest-folder-then-lexicographic
key order. -/
theorem get_key_and_size_of_letters_to_be_sent_to_print_ordering_cex :
    (get_key_and_size_of_letters_to_be_sent_to_print 1050 Postage.second
        printRunExampleNotifications printRunExampleBlob).1 =
      [⟨"2020-02-16/NOTIFY.REF2.D.2.C.20200215180000.PDF".data, 3,
          "svc".data, "org".data⟩,
       ⟨"2020-02-17/NOTIFY.REF1.D.2.C.20200217150000.PDF".data, 2,
          "svc".data, "org".data⟩,
       ⟨"2020-02-17/NOTIFY.REF0.D.2.C.20200217160000.PDF".data, 1,
          "svc".data, "org".data⟩] ∧
    ¬ List.Pairwise (fun r1 r2 : LetterPdf => claimedKeyOrder r1.Key r2.Key)
      (get_key_and_size_of_letters_to_be_sent_to_print 1050 Postage.second
        printRunExampleNotifications printRunExampleBlob).1 := by
  constructor
  · decide
  · decide

/-- Claim C6 as amended: the listing returns exactly the letters whose
notification has status created, a non-test key type, the requested postage
and was created on or before the boundary derived from the cutoff and whose
blob exists; the results are ordered by service id, then organisation id,
then creation time (oldest first), not oldest-folder-then-lexicographic-key;
and a candidate whose blob is missing from storage is logged and skipped
rather than failing the listing. -/
theorem get_key_and_size_of_letters_to_be_sent_to_print_correct
    (cutoff : Nat) (postage : Postage) (notifications : List LetterNotification)
    (blobSize : Str → Option Nat) :
    (∀ ref, ref ∈ (get_key_and_size_of_letters_to_be_sent_to_print cutoff postage
          notifications blobSize).1 ↔
        ∃ n ∈ notifications, eligibleForPrint cutoff postage n = true ∧
          blobSize n.key = some ref.Size ∧ ref.Key = n.key ∧
          ref.ServiceId = n.serviceId ∧ ref.OrganisationId = n.organisationId) ∧
    List.Pairwise serviceOrgOrder
      (get_key_and_size_of_letters_to_be_sent_to_print cutoff postage
        notifications blobSize).1 ∧
    (∃ sorted, sorted.Perm (notifications.filter (eligibleForPrint cutoff postage)) ∧
      List.Pairwise letterListingOrder sorted ∧
      (get_key_and_size_of_letters_to_be_sent_to_print cutoff postage
          notifications blobSize).1 =
        sorted.filterMap (fun n => (blobSize n.key).map
          (fun sz => LetterPdf.mk n.key sz n.serviceId n.organisationId))) ∧
    (∀ k, k ∈ (get_key_and_size_of_letters_to_be_sent_to_print cutoff postage
          notifications blobSize).2 ↔
        ∃ n ∈ notifications, eligibleForPrint cutoff postage n = true ∧
          blobSize n.key = none ∧ k = n.key) := by
  have hperm :
      (List.insertionSort letterListingOrder
        (notifications.filter (eligibleForPrint cutoff postage))).Perm
        (notifications.filter (eligibleForPrint cutoff postage)) :=
    List.perm_insertionSort _ _
  refine ⟨?_, ?_, ?_, ?_⟩
  · intro ref
    constructor
    · intro href
      simp only [get_key_and_size_of_letters_to_be_sent_to_print,
        List.mem_filterMap] at href
      obtain ⟨n, hn, hf⟩ := href
      have hn' := hperm.mem_iff.mp hn
      rw [List.mem_filter] at hn'
      obtain ⟨sz, hsz, hmk⟩ := Option.map_eq_some'.mp hf
      refine ⟨n, hn'.1, hn'.2, ?_, ?_, ?_, ?_⟩ <;> rw [← hmk] <;> simp [hsz]
    · intro ⟨n, hn, helig, hblob, hkey, hsvc, horg⟩
      simp only [get_key_and_size_of_letters_to_be_sent_to_print,
        List.mem_filterMap]
      refine ⟨n, hperm.mem_iff.mpr (List.mem_filter.mpr ⟨hn, helig⟩), ?_⟩
      rw [hblob]
      cases ref
      simp only [Option.map_some']
      congr 1
      simp_all
  · have hsorted : List.Pairwise letterListingOrder
        (List.insertionSort letterListingOrder
          (notifications.filter (eligibleForPrint cutoff postage))) :=
      List.sorted_insertionSort letterListingOrder _
    exact List.Pairwise.filterMap _
      (fun a a' hrel b hb b' hb' => by
        obtain ⟨sz, _, hmk⟩ := Option.map_eq_some'.mp hb
        obtain ⟨sz', _, hmk'⟩ := Option.map_eq_some'.mp hb'
        rw [← hmk, ← hmk']
        rcases hrel with h | ⟨e, h'⟩
        · exact Or.inl h
        · rcases h' with h'' | ⟨e', _⟩
          · exact Or.inr ⟨e, le_of_lt h''⟩
          · exact Or.inr ⟨e, le_of_eq e'⟩)
      hsorted
  · exact ⟨List.insertionSort letterListingOrder
      (notifications.filter (eligibleForPrint cutoff postage)),
      hperm, List.sorted_insertionSort letterListingOrder _, rfl⟩
  · intro k
    constructor
    · intro hk
      simp only [get_key_and_size_of_letters_to_be_sent_to_print,
        List.mem_map, List.mem_filter] at hk
      obtain ⟨n, ⟨hn, hnone⟩, hkey⟩ := hk
      have hn' := hperm.mem_iff.mp hn
      rw [List.mem_filter] at hn'
      exact ⟨n, hn'.1, hn'.2, by simpa using hnone, hkey.symm⟩
    · intro ⟨n, hn, helig, hnone, hkey⟩
      simp only [get_key_and_size_of_letters_to_be_sent_to_print,
        List.mem_map, List.mem_filter]
      exact ⟨n, ⟨hperm.mem_iff.mpr (List.mem_filter.mpr ⟨hn, helig⟩),
        by simpa using hnone⟩, hkey.symm⟩

/-- A two-notification store exercising the listing: one eligible candidate
whose blob exists and one whose blob is missing. -/
def listingExampleNotifications : List LetterNotification :=
  [⟨"2020-02-17/NOTIFY.REF1.PDF".data, 50, NotificationStatus.created,
      KeyType.normal, Postage.second, "svc".data, "org".data⟩,
   ⟨"2020-02-17/NOTIFY.REF0.PDF".data, 60, NotificationStatus.created,
      KeyType.normal, Postage.second, "svc".data, "org".data⟩]

/-- A blob store holding only the first example candidate's PDF. -/
def listingExampleBlob : Str → Option Nat :=
  fun k => if k = "2020-02-17/NOTIFY.REF1.PDF".data then some 2 else none

/-- Witness for claim C6 (amended) on the concrete example store: the
present blob is listed with its size and the missing one is logged. -/
theorem get_key_and_size_of_letters_to_be_sent_to_print_correct_witness :
    LetterPdf.mk "2020-02-17/NOTIFY.REF1.PDF".data 2 "svc".data "org".data ∈
      (get_key_and_size_of_letters_to_be_sent_to_print 100 Postage.second
        listingExampleNotifications listingExampleBlob).1 ∧
    "2020-02-17/NOTIFY.REF0.PDF".data ∈
      (get_key_and_size_of_letters_to_be_sent_to_print 100 Postage.second
        listingExampleNotifications listingExampleBlob).2 :=
  ⟨((get_key_and_size_of_letters_to_be_sent_to_print_correct 100 Postage.second
      listingExampleNotifications listingExampleBlob).1 _).mpr
      ⟨⟨"2020-02-17/NOTIFY.REF1.PDF".data, 50, NotificationStatus.created,
          KeyType.normal, Postage.second, "svc".data, "org".data⟩,
        by decide, by decide, by decide, rfl, rfl, rfl⟩,
   ((get_key_and_size_of_letters_to_be_sent_to_print_correct 100 Postage.second
      listingExampleNotifications listingExampleBlob).2.2.2 _).mpr
      ⟨⟨"2020-02-17/NOTIFY.REF0.PDF".data, 60, NotificationStatus.created,
          KeyType.normal, Postage.second, "svc".data, "org".data⟩,
        by decide, by decide, by decide, rfl⟩⟩

/-! ## Callback Reconciliation Engine — per-letter status reconciliation -/

/-- The provider's letter callback status codes
(`Despatched` and `Rejected`). -/
inductive DvlaStatus
  | despatched
  | rejected
deriving DecidableEq, Repr

/-- The fixed mapping from provider status code to internal status
(`DVLA_TO_NOTIFICATION_STATUS_MAP`): dispatched maps to delivered and
rejected maps to technical-failure. -/
def determine_new_status : DvlaStatus → NotificationStatus
  | DvlaStatus.despatched => NotificationStatus.delivered
  | DvlaStatus.rejected => NotificationStatus.technicalFailure

/-- Statuses terminal with respect to the reconciliation engine: created,
validation-failed, virus-scan-failed, technical-failure and delivered. -/
def isTerminalForCallback : NotificationStatus → Bool
  | NotificationStatus.created => true
  | NotificationStatus.validationFailed => true
  | NotificationStatus.virusScanFailed => true
  | NotificationStatus.technicalFailure => true
  | NotificationStatus.delivered => true
  | _ => false

/-- The reconciliation-relevant view of a notification row. -/
structure CallbackNotification where
  id : Nat
  status : NotificationStatus
  updatedAt : Option Nat
  billableUnits : Nat
  serviceId : Nat
deriving DecidableEq, Repr

/-- Notification persistence split into live rows and rows already moved to
historical storage. -/
structure NotificationStore where
  live : List CallbackNotification
  history : List CallbackNotification
deriving DecidableEq, Repr

/-- Look a notification up by id, checking live storage first and then
historical storage, transparently to the caller. -/
def findById (st : NotificationStore) (id : Nat) : Option CallbackNotification :=
  match st.live.find? (fun n => n.id == id) with
  | some n => some n
  | none => st.history.find? (fun n => n.id == id)

/-- Apply an update to the notification with the given id in whichever
storage holds it. -/
def updateById (st : NotificationStore) (id : Nat)
    (f : CallbackNotification → CallbackNotification) : NotificationStore :=
  { live := st.live.map (fun n => if n.id == id then f n else n),
    history := st.history.map (fun n => if n.id == id then f n else n) }

/-- Content of the duplicate-callback notice: current and new status,
service id and notification id. -/
structure DuplicateLog where
  currentStatus : NotificationStatus
  newStatus : NotificationStatus
  serviceId : Nat
  notificationId : Nat
deriving DecidableEq, Repr

/-- Observable outcome of processing one provider callback: the resulting
store, whether a caller-visible technical-failure was raised after
persisting, the duplicate notice if one was logged, and whether a page-count
discrepancy was logged. -/
structure CallbackOutcome where
  store : NotificationStore
  raisedTechnicalFailure : Bool
  duplicateLog : Option DuplicateLog
  pageCountMismatchLogged : Bool
deriving DecidableEq, Repr

/-- Modelled from the spec: `process_letter_callback_data` of the letter
client response task module (absent from the sources).  Resolve the provider
code through the fixed mapping; log a page-count discrepancy without blocking
the update; if the current status is terminal for the engine and equals the
target status, log a duplicate notice and return without mutating state or
timestamps; otherwise persist the new status with the callback-processing
time `now` and, when the target is technical-failure, raise a caller-visible
failure after persisting.  Returns none when no notification exists with the
given id in either storage. -/
def process_letter_callback_data (st : NotificationStore) (notificationId : Nat)
    (pageCount : Nat) (code : DvlaStatus) (now : Nat) : Option CallbackOutcome :=
  match findById st notificationId with
  | none => none
  | some n =>
    let newStatus := determine_new_status code
    let mismatch := decide (n.billableUnits ≠ pageCount)
    if isTerminalForCallback n.status ∧ n.status = newStatus then
      some { store := st, raisedTechnicalFailure := false,
             duplicateLog := some ⟨n.status, newStatus, n.serviceId, n.id⟩,
             pageCountMismatchLogged := mismatch }
    else
      some { store := updateById st notificationId
               (fun m => { m with status := newStatus, updatedAt := some now }),
             raisedTechnicalFailure := decide (newStatus = NotificationStatus.technicalFailure),
             duplicateLog := none,
             pageCountMismatchLogged := mismatch }

lemma find?_map_update (l : List CallbackNotification) (id : Nat)
    (f : CallbackNotification → CallbackNotification)
    (hf : ∀ m, (f m).id = m.id) :
    (l.map (fun n => if n.id == id then f n else n)).find? (fun n => n.id == id) =
      (l.find? (fun n => n.id == id)).map f := by
  induction l with
  | nil => rfl
  | cons h t ih =>
    by_cases hid : h.id = id
    · simp only [List.map_cons]
      rw [if_pos (show (h.id == id) = true by simpa using hid)]
      rw [List.find?_cons_of_pos _ (by simp [hf h, hid]),
        List.find?_cons_of_pos _ (by simpa using hid)]
      simp
    · simp only [List.map_cons]
      rw [if_neg (show ¬ (h.id == id) = true by simpa using hid)]
      rw [List.find?_cons_of_neg _ (by simpa using hid),
        List.find?_cons_of_neg _ (by simpa using hid)]
      exact ih

lemma findById_updateById (st : NotificationStore) (id : Nat)
    (f : CallbackNotification → CallbackNotification)
    (hf : ∀ m, (f m).id = m.id) :
    findById (updateById st id f) id = (findById st id).map f := by
  unfold findById updateById
  rw [find?_map_update _ _ _ hf, find?_map_update _ _ _ hf]
  cases st.live.find? (fun n => n.id == id) <;> simp

lemma callback_same_status_aux (st : NotificationStore)
    (id pageCount now : Nat) (code : DvlaStatus) (n : CallbackNotification)
    (hfind : findById st id = some n)
    (hterm : isTerminalForCallback n.status = true)
    (hsame : determine_new_status code = n.status) :
    process_letter_callback_data st id pageCount code now =
      some ⟨st, false, some ⟨n.status, n.status, n.serviceId, n.id⟩,
        decide (n.billableUnits ≠ pageCount)⟩ := by
  unfold process_letter_callback_data
  rw [hfind]
  simp only [hsame]
  rw [if_pos ⟨hterm, trivial⟩]

/-- Claim C2 fails as stated: a notification whose status is already the
terminal status delivered is not left unchanged by a later callback carrying
the Rejected code — the callback overwrites it to technical-failure, because
the idempotency guard only fires when the mapped target status equals the
current status. -/
theorem process_letter_callback_data_terminal_overwrite_cex :
    (process_letter_callback_data
        ⟨[⟨1, NotificationStatus.delivered, some 50, 1, 7⟩], []⟩ 1 1
        DvlaStatus.rejected 100).map
      (fun o => (findById o.store 1).map (fun n => n.status)) ≠
    some (some NotificationStatus.delivered) := by
  decide

/-- Claim C2 as amended: once a notification is delivered or
technical-failure, a later invocation of the callback processing operation
accepts no further transition and leaves the store unchanged exactly when the
provider code of the later callback maps to the notification's current
status; it logs a duplicate notice instead of mutating state. -/
theorem process_letter_callback_data_terminal_same_status (st : NotificationStore)
    (id pageCount now : Nat) (code : DvlaStatus) (n : CallbackNotification)
    (hfind : findById st id = some n)
    (hterm : n.status = NotificationStatus.delivered ∨
      n.status = NotificationStatus.technicalFailure)
    (hsame : determine_new_status code = n.status) :
    process_letter_callback_data st id pageCount code now =
      some ⟨st, false, some ⟨n.status, n.status, n.serviceId, n.id⟩,
        decide (n.billableUnits ≠ pageCount)⟩ :=
  callback_same_status_aux st id pageCount now code n hfind
    (by rcases hterm with h | h <;> rw [h] <;> rfl) hsame

/-- Witness for claim C2 (amended) on a concrete store: a technical-failure
notification receiving another Rejected callback is left untouched. -/
theorem process_letter_callback_data_terminal_same_status_witness :
    findById ⟨[⟨2, NotificationStatus.technicalFailure, some 5, 3, 9⟩], []⟩ 2 =
      some ⟨2, NotificationStatus.technicalFailure, some 5, 3, 9⟩ ∧
    process_letter_callback_data
        ⟨[⟨2, NotificationStatus.technicalFailure, some 5, 3, 9⟩], []⟩ 2 1
        DvlaStatus.rejected 100 =
      some ⟨⟨[⟨2, NotificationStatus.technicalFailure, some 5, 3, 9⟩], []⟩, false,
        some ⟨NotificationStatus.technicalFailure, NotificationStatus.technicalFailure, 9, 2⟩,
        decide ((3 : Nat) ≠ 1)⟩ :=
  ⟨by decide,
    process_letter_callback_data_terminal_same_status
      ⟨[⟨2, NotificationStatus.technicalFailure, some 5, 3, 9⟩], []⟩ 2 1 100
      DvlaStatus.rejected ⟨2, NotificationStatus.technicalFailure, some 5, 3, 9⟩
      (by decide) (Or.inr rfl) rfl⟩

/-- Claim C3: a second Despatched callback on an already-delivered
notification changes neither status nor updatedAt, and logs a duplicate
notice carrying the current and new status, the service id and the
notification id; the operation is idempotent when the target status equals
the current terminal status. -/
theorem process_letter_callback_data_duplicate_update (st : NotificationStore)
    (id pageCount now : Nat) (n : CallbackNotification)
    (hfind : findById st id = some n)
    (hstatus : n.status = NotificationStatus.delivered) :
    process_letter_callback_data st id pageCount DvlaStatus.despatched now =
      some ⟨st, false,
        some ⟨NotificationStatus.delivered, NotificationStatus.delivered,
          n.serviceId, n.id⟩,
        decide (n.billableUnits ≠ pageCount)⟩ ∧
    (process_letter_callback_data st id pageCount DvlaStatus.despatched now).map
        (fun o => (findById o.store id).map (fun m => (m.status, m.updatedAt))) =
      some (some (n.status, n.updatedAt)) := by
  have h1 := callback_same_status_aux st id pageCount now DvlaStatus.despatched n
    hfind (by rw [hstatus]; rfl) (by rw [hstatus]; rfl)
  constructor
  · rw [h1, hstatus]
  · rw [h1]
    simp [hfind]

/-- Witness for claim C3 on a concrete store holding the delivered
notification in historical storage. -/
theorem process_letter_callback_data_duplicate_update_witness :
    findById ⟨[], [⟨4, NotificationStatus.delivered, some 11, 2, 8⟩]⟩ 4 =
      some ⟨4, NotificationStatus.delivered, some 11, 2, 8⟩ ∧
    process_letter_callback_data
        ⟨[], [⟨4, NotificationStatus.delivered, some 11, 2, 8⟩]⟩ 4 2
        DvlaStatus.despatched 99 =
      some ⟨⟨[], [⟨4, NotificationStatus.delivered, some 11, 2, 8⟩]⟩, false,
        some ⟨NotificationStatus.delivered, NotificationStatus.delivered, 8, 4⟩,
        decide ((2 : Nat) ≠ 2)⟩ :=
  ⟨by decide,
    (process_letter_callback_data_duplicate_update
      ⟨[], [⟨4, NotificationStatus.delivered, some 11, 2, 8⟩]⟩ 4 2 99
      ⟨4, NotificationStatus.delivered, some 11, 2, 8⟩ (by decide) rfl).1⟩

/-- Claim C4: on a notification whose status is not terminal for the engine,
a Rejected callback persists technical-failure with updatedAt set to the
processing time and raises a caller-visible failure after persisting (the
persisted change survives the raise), a Despatched callback persists
delivered with updatedAt set to the processing time and returns without
raising, and processing behaves identically whether the notification is held
in live or in historical storage. -/
theorem process_letter_callback_data_nonterminal_update (st : NotificationStore)
    (id pageCount now : Nat) (n : CallbackNotification)
    (hfind : findById st id = some n)
    (hnt : isTerminalForCallback n.status = false) :
    (∃ o, process_letter_callback_data st id pageCount DvlaStatus.rejected now =
        some o ∧
      o.raisedTechnicalFailure = true ∧ o.duplicateLog = none ∧
      findById o.store id =
        some { n with
                status := NotificationStatus.technicalFailure,
                updatedAt := some now }) ∧
    (∃ o, process_letter_callback_data st id pageCount DvlaStatus.despatched now =
        some o ∧
      o.raisedTechnicalFailure = false ∧ o.duplicateLog = none ∧
      findById o.store id =
        some { n with
                status := NotificationStatus.delivered,
                updatedAt := some now }) ∧
    (∀ (m : CallbackNotification) (code : DvlaStatus),
      (process_letter_callback_data ⟨[m], []⟩ m.id pageCount code now).map
          (fun o => (o.raisedTechnicalFailure, o.duplicateLog,
            findById o.store m.id)) =
        (process_letter_callback_data ⟨[], [m]⟩ m.id pageCount code now).map
          (fun o => (o.raisedTechnicalFailure, o.duplicateLog,
            findById o.store m.id))) := by
  refine ⟨?_, ?_, ?_⟩
  · refine ⟨⟨updateById st id
        (fun m =>
          { m with
              status := NotificationStatus.technicalFailure,
              updatedAt := some now }),
        true, none, decide (n.billableUnits ≠ pageCount)⟩, ?_, rfl, rfl, ?_⟩
    · unfold process_letter_callback_data
      rw [hfind]
      dsimp only
      rw [if_neg (fun hc => by simp [hnt] at hc)]
      rfl
    · dsimp only
      rw [findById_updateById st id
        (fun m =>
          { m with
              status := NotificationStatus.technicalFailure,
              updatedAt := some now }) (fun _ => rfl), hfind]
      rfl
  · refine ⟨⟨updateById st id
        (fun m =>
          { m with
              status := NotificationStatus.delivered,
              updatedAt := some now }),
        false, none, decide (n.billableUnits ≠ pageCount)⟩, ?_, rfl, rfl, ?_⟩
    · unfold process_letter_callback_data
      rw [hfind]
      dsimp only
      rw [if_neg (fun hc => by simp [hnt] at hc)]
      rfl
    · dsimp only
      rw [findById_updateById st id
        (fun m =>
          { m with
              status := NotificationStatus.delivered,
              updatedAt := some now }) (fun _ => rfl), hfind]
      rfl
  · intro m code
    have hf1 : findById ⟨[m], []⟩ m.id = some m := by
      simp [findById]
    have hf2 : findById ⟨[], [m]⟩ m.id = some m := by
      simp [findById]
    unfold process_letter_callback_data
    rw [hf1, hf2]
    dsimp only
    by_cases hguard : isTerminalForCallback m.status = true ∧
      m.status = determine_new_status code
    · simp only [if_pos hguard, Option.map_some']
      rw [hf1, hf2]
    · simp only [if_neg hguard, Option.map_some']
      have hu1 := findById_updateById ⟨[m], []⟩ m.id
        (fun x =>
          { x with
              status := determine_new_status code,
              updatedAt := some now }) (fun _ => rfl)
      have hu2 := findById_updateById ⟨[], [m]⟩ m.id
        (fun x =>
          { x with
              status := determine_new_status code,
              updatedAt := some now }) (fun _ => rfl)
      rw [hu1, hu2, hf1, hf2]

/-- Witness for claim C4 on a concrete store holding one sending
notification in live storage, receiving a Rejected callback. -/
theorem process_letter_callback_data_nonterminal_update_witness :
    findById ⟨[⟨3, NotificationStatus.sending, none, 1, 5⟩], []⟩ 3 =
      some ⟨3, NotificationStatus.sending, none, 1, 5⟩ ∧
    isTerminalForCallback NotificationStatus.sending = false ∧
    ∃ o, process_letter_callback_data
        ⟨[⟨3, NotificationStatus.sending, none, 1, 5⟩], []⟩ 3 1
        DvlaStatus.rejected 100 = some o ∧
      o.raisedTechnicalFailure = true ∧ o.duplicateLog = none ∧
      findById o.store 3 = some ⟨3, NotificationStatus.technicalFailure, some 100, 1, 5⟩ :=
  ⟨by decide, by decide,
    (process_letter_callback_data_nonterminal_update
      ⟨[⟨3, NotificationStatus.sending, none, 1, 5⟩], []⟩ 3 1 100
      ⟨3, NotificationStatus.sending, none, 1, 5⟩ (by decide) (by decide)).1⟩

/-! ## Provider Client — credential rotation -/

/-- A credential cached in-process and backed by the external secret store:
the store's value, the cached copy and the instant it was last read. -/
structure CachedSsmParameter where
  storeValue : Str
  cachedValue : Option Str
  lastReadAt : Option Nat
deriving DecidableEq, Repr

/-- Modelled from the spec: `set` on a cached credential — write through to
the secret store, then update the cache and its timestamp to now. -/
def ssmSet (_p : CachedSsmParameter) (v : Str) (now : Nat) : CachedSsmParameter :=
  { storeValue := v, cachedValue := some v, lastReadAt := some now }

/-- The provider client's credential state: the password and API-key
parameters, whether another process currently holds the shared rotation
lock, and the number of HTTP calls made to the provider so far. -/
structure DvlaClientState where
  dvla_password : CachedSsmParameter
  dvla_api_key : CachedSsmParameter
  lockHeldElsewhere : Bool
  httpCalls : Nat
deriving DecidableEq, Repr

/-- Failures a rotation can signal: immediate lock contention, or a non-2xx
provider response propagated as a transport error. -/
inductive RotationError
  | lockContention
  | httpError (statusCode : Nat)
deriving DecidableEq, Repr

/-- Final state and error signal of one rotation attempt. -/
structure RotationResult where
  state : DvlaClientState
  error : Option RotationError
deriving DecidableEq, Repr

/-- Modelled from the spec: `change_password` of the DVLA client (absent
from the sources).  Acquire the shared rotation lock — failing immediately
with a lock-contention error, zero HTTP calls and an untouched cache if it
is held elsewhere — then call the provider once; on a 2xx response `set` the
cached password (write-through), on any other response propagate a transport
error and leave the credential untouched. -/
def change_password (st : DvlaClientState) (newPassword : Str)
    (respStatus now : Nat) : RotationResult :=
  if st.lockHeldElsewhere then
    { state := st, error := some RotationError.lockContention }
  else
    let st' := { st with httpCalls := st.httpCalls + 1 }
    if 200 ≤ respStatus ∧ respStatus < 300 then
      { state := { st' with dvla_password := ssmSet st.dvla_password newPassword now },
        error := none }
    else
      { state := st', error := some (RotationError.httpError respStatus) }

/-- Modelled from the spec: `change_api_key` of the DVLA client (absent from
the sources); identical to `change_password` but rotating the API key, under
the same shared lock. -/
def change_api_key (st : DvlaClientState) (newApiKey : Str)
    (respStatus now : Nat) : RotationResult :=
  if st.lockHeldElsewhere then
    { state := st, error := some RotationError.lockContention }
  else
    let st' := { st with httpCalls := st.httpCalls + 1 }
    if 200 ≤ respStatus ∧ respStatus < 300 then
      { state := { st' with dvla_api_key := ssmSet st.dvla_api_key newApiKey now },
        error := none }
    else
      { state := st', error := some (RotationError.httpError respStatus) }

/-- Claim C8: `change_password` and `change_api_key` update the cached
credential via `set` (which writes through to the secret store) exactly when
the provider call returns 2xx; when the shared rotation lock is held
elsewhere they fail immediately with a lock-contention error having made
zero HTTP calls and leaving every credential untouched; and on a non-2xx
response the transport error propagates and the credentials stay untouched
(one HTTP call having been made). -/
theorem credential_rotation_correct (st : DvlaClientState)
    (newValue : Str) (respStatus now : Nat) :
    (st.lockHeldElsewhere = true →
      change_password st newValue respStatus now =
          { state := st, error := some RotationError.lockContention } ∧
        change_api_key st newValue respStatus now =
          { state := st, error := some RotationError.lockContention }) ∧
    (st.lockHeldElsewhere = false → 200 ≤ respStatus → respStatus < 300 →
      change_password st newValue respStatus now =
          { state := { st with
              dvla_password := ssmSet st.dvla_password newValue now,
              httpCalls := st.httpCalls + 1 },
            error := none } ∧
        change_api_key st newValue respStatus now =
          { state := { st with
              dvla_api_key := ssmSet st.dvla_api_key newValue now,
              httpCalls := st.httpCalls + 1 },
            error := none }) ∧
    (st.lockHeldElsewhere = false → ¬(200 ≤ respStatus ∧ respStatus < 300) →
      change_password st newValue respStatus now =
          { state := { st with httpCalls := st.httpCalls + 1 },
            error := some (RotationError.httpError respStatus) } ∧
        change_api_key st newValue respStatus now =
          { state := { st with httpCalls := st.httpCalls + 1 },
            error := some (RotationError.httpError respStatus) }) := by
  refine ⟨?_, ?_, ?_⟩
  · intro hlock
    refine ⟨?_, ?_⟩
    · unfold change_password
      rw [if_pos hlock]
    · unfold change_api_key
      rw [if_pos hlock]
  · intro hlock h200 h300
    refine ⟨?_, ?_⟩
    · unfold change_password
      rw [if_neg (by simp [hlock]), if_pos ⟨h200, h300⟩]
    · unfold change_api_key
      rw [if_neg (by simp [hlock]), if_pos ⟨h200, h300⟩]
  · intro hlock hresp
    refine ⟨?_, ?_⟩
    · unfold change_password
      rw [if_neg (by simp [hlock]), if_neg hresp]
    · unfold change_api_key
      rw [if_neg (by simp [hlock]), if_neg hresp]

/-- Witness for claim C8: lock contention on a concrete client state leaves
the state untouched and signals the lock error. -/
theorem credential_rotation_correct_witness :
    (DvlaClientState.mk ⟨"pw".data, some "pw".data, some 1⟩
        ⟨"key".data, some "key".data, some 1⟩ true 0).lockHeldElsewhere = true ∧
    change_password
        (DvlaClientState.mk ⟨"pw".data, some "pw".data, some 1⟩
          ⟨"key".data, some "key".data, some 1⟩ true 0) "new".data 200 5 =
      { state := DvlaClientState.mk ⟨"pw".data, some "pw".data, some 1⟩
          ⟨"key".data, some "key".data, some 1⟩ true 0,
        error := some RotationError.lockContention } :=
  ⟨rfl,
    ((credential_rotation_correct
      (DvlaClientState.mk ⟨"pw".data, some "pw".data, some 1⟩
        ⟨"key".data, some "key".data, some 1⟩ true 0) "new".data 200 5).1 rfl).1⟩

/-! ## Callback Reconciliation Engine — outbound acknowledgement audit -/

/-- Fuelled scan for `replaceAll`; the fuel bounds the number of characters
still to be consumed, so one unit per step always suffices. -/
def replaceAllGo (pat rep : Str) : Nat → Str → Str
  | 0, s => s
  | _, [] => []
  | fuel + 1, c :: rest =>
    if pat ≠ [] ∧ (c :: rest).take pat.length = pat then
      rep ++ replaceAllGo pat rep fuel ((c :: rest).drop pat.length)
    else
      c :: replaceAllGo pat rep fuel rest

/-- Replace every non-overlapping occurrence of `pat` by `rep`, scanning
left to right — the semantics of the Python `str.replace`. -/
def replaceAll (pat rep s : Str) : Str :=
  replaceAllGo pat rep s.length s

/-- Normalisation of one dispatched-zip listing key, as in the audit task:
take the last path component, upper-case it and remove `.ZIP.TXT`. -/
def zipIdentOfKey (key : Str) : Str :=
  replaceAll ".ZIP.TXT".data [] ((lastComponent key).map upperChar)

/-- Normalisation of one acknowledgement file key, as in the audit task:
strip the leading characters of `root/dispatch` as a character set (the
Python `lstrip`), upper-case and remove `.ACK.TXT`. -/
def ackIdentOfKey (key : Str) : Str :=
  replaceAll ".ACK.TXT".data [] ((lstripChars "root/dispatch".data key).map upperChar)

/-- The set of batch identifiers dispatched today, with the empty identifier
discarded. -/
def zip_file_set (zipKeys : List Str) : List Str :=
  ((zipKeys.map zipIdentOfKey).dedup).filter (fun k => k ≠ [])

/-- The set of batch identifiers acknowledged since yesterday, with the
empty identifier discarded. -/
def ack_file_set (ackKeys : List Str) : List Str :=
  ((ackKeys.map ackIdentOfKey).dedup).filter (fun k => k ≠ [])

/-- Identifiers sent today but not acknowledged. -/
def missingAcks (zipKeys ackKeys : List Str) : List Str :=
  (zip_file_set zipKeys).filter (fun k => k ∉ ack_file_set ackKeys)

/-- Identifiers acknowledged without a matching zip sent today. -/
def extraAcks (zipKeys ackKeys : List Str) : List Str :=
  (ack_file_set ackKeys).filter (fun k => k ∉ zip_file_set zipKeys)

/-- Content of the operational support ticket: the sorted missing
identifiers and the source and destination storage locations. -/
structure AckAlertTicket where
  missingSorted : List Str
  pdfBucket : Str
  ackBucket : Str
deriving DecidableEq, Repr

/-- Observable outcome of the acknowledgement audit: the raised ticket, if
any; whether the error-level entry was logged; and the info-level log of
acknowledgements without a matching zip, if any. -/
structure AckAuditOutcome where
  ticket : Option AckAlertTicket
  errorLogged : Bool
  infoLoggedExtra : Option (List Str)
deriving DecidableEq, Repr

/-- Embedding of `letter_raise_alert_if_no_ack_file_for_zip` of the nightly
tasks: compare the normalized identifiers of today's dispatched zips with
the acknowledgements modified since yesterday; when some zips lack an
acknowledgement, raise a support ticket carrying the sorted missing list and
the two bucket locations (only when alerting is enabled) and always write an
error-level log entry; acknowledgements without a matching zip are only
logged at info level. -/
def letter_raise_alert_if_no_ack_file_for_zip (zipKeys ackKeys : List Str)
    (shouldSendZendeskAlerts : Bool) (pdfBucket ackBucket : Str) : AckAuditOutcome :=
  let missing := missingAcks zipKeys ackKeys
  let extra := extraAcks zipKeys ackKeys
  { ticket :=
      if missing ≠ [] ∧ shouldSendZendeskAlerts = true then
        some ⟨List.insertionSort (fun a b => a ≤ b) missing, pdfBucket, ackBucket⟩
      else none,
    errorLogged := decide (missing ≠ []),
    infoLoggedExtra := if extra ≠ [] then some extra else none }

/-- Claim C9: when some of today's dispatched zips lack an acknowledgement,
the audit raises a support ticket (when alerting is enabled) carrying the
sorted missing identifiers and the source and destination buckets and always
writes an error-level log entry; when every zip is acknowledged no ticket is
raised and no error is logged; every raised ticket stems from missing
acknowledgements and carries a sorted permutation of them; and
acknowledgements without a matching zip are logged at info level only and
never raise a ticket. -/
theorem letter_raise_alert_if_no_ack_file_for_zip_correct
    (zipKeys ackKeys : List Str) (flag : Bool) (pdfBucket ackBucket : Str) :
    (missingAcks zipKeys ackKeys ≠ [] →
      (letter_raise_alert_if_no_ack_file_for_zip zipKeys ackKeys flag
          pdfBucket ackBucket).errorLogged = true ∧
      (flag = true →
        (letter_raise_alert_if_no_ack_file_for_zip zipKeys ackKeys flag
            pdfBucket ackBucket).ticket =
          some ⟨List.insertionSort (fun a b => a ≤ b) (missingAcks zipKeys ackKeys),
            pdfBucket, ackBucket⟩)) ∧
    (missingAcks zipKeys ackKeys = [] →
      (letter_raise_alert_if_no_ack_file_for_zip zipKeys ackKeys flag
          pdfBucket ackBucket).ticket = none ∧
      (letter_raise_alert_if_no_ack_file_for_zip zipKeys ackKeys flag
          pdfBucket ackBucket).errorLogged = false) ∧
    (∀ t, (letter_raise_alert_if_no_ack_file_for_zip zipKeys ackKeys flag
          pdfBucket ackBucket).ticket = some t →
      missingAcks zipKeys ackKeys ≠ [] ∧
      List.Sorted (fun a b : Str => a ≤ b) t.missingSorted ∧
      t.missingSorted.Perm (missingAcks zipKeys ackKeys) ∧
      t.pdfBucket = pdfBucket ∧ t.ackBucket = ackBucket) ∧
    (extraAcks zipKeys ackKeys ≠ [] →
      (letter_raise_alert_if_no_ack_file_for_zip zipKeys ackKeys flag
          pdfBucket ackBucket).infoLoggedExtra = some (extraAcks zipKeys ackKeys)) := by
  refine ⟨?_, ?_, ?_, ?_⟩
  · intro hm
    refine ⟨by simp [letter_raise_alert_if_no_ack_file_for_zip, hm], ?_⟩
    intro hflag
    simp [letter_raise_alert_if_no_ack_file_for_zip, hm, hflag]
  · intro hm
    constructor <;> simp [letter_raise_alert_if_no_ack_file_for_zip, hm]
  · intro t ht
    simp only [letter_raise_alert_if_no_ack_file_for_zip] at ht
    by_cases hc : missingAcks zipKeys ackKeys ≠ [] ∧ flag = true
    · rw [if_pos hc] at ht
      obtain rfl : AckAlertTicket.mk
          (List.insertionSort (fun a b => a ≤ b) (missingAcks zipKeys ackKeys))
          pdfBucket ackBucket = t := by
        exact Option.some.inj ht
      exact ⟨hc.1, List.sorted_insertionSort _ _, List.perm_insertionSort _ _, rfl, rfl⟩
    · rw [if_neg hc] at ht
      cases ht
  · intro he
    simp [letter_raise_alert_if_no_ack_file_for_zip, he]

/-- The dispatched-zip listing of the repository's audit test. -/
def auditZipKeys : List Str :=
  ["2018-01-11/zips_sent/NOTIFY.2018-01-11175007.ZIP.TXT".data,
   "2018-01-11/zips_sent/NOTIFY.2018-01-11175008.ZIP.TXT".data,
   "2018-01-11/zips_sent/NOTIFY.2018-01-11175009.ZIP.TXT".data,
   "2018-01-11/zips_sent/NOTIFY.2018-01-11175010.ZIP.TXT".data]

/-- The acknowledgement listing of the repository's audit test, covering
only the first two zips. -/
def auditAckKeys : List Str :=
  ["root/dispatch/NOTIFY.2018-01-11175007.ACK.txt".data,
   "root/dispatch/NOTIFY.2018-01-11175008.ACK.txt".data]

/-- Witness for claim C9 on the audit test's listings: two zips lack an
acknowledgement, so the error log is written and the ticket carries them. -/
theorem letter_raise_alert_if_no_ack_file_for_zip_correct_witness :
    missingAcks auditZipKeys auditAckKeys ≠ [] ∧
    (letter_raise_alert_if_no_ack_file_for_zip auditZipKeys auditAckKeys true
        "letters-pdf".data "dvla-response".data).errorLogged = true ∧
    (letter_raise_alert_if_no_ack_file_for_zip auditZipKeys auditAckKeys true
        "letters-pdf".data "dvla-response".data).ticket =
      some ⟨List.insertionSort (fun a b => a ≤ b) (missingAcks auditZipKeys auditAckKeys),
        "letters-pdf".data, "dvla-response".data⟩ :=
  ⟨by decide,
    ((letter_raise_alert_if_no_ack_file_for_zip_correct auditZipKeys auditAckKeys
      true "letters-pdf".data "dvla-response".data).1 (by decide)).1,
    ((letter_raise_alert_if_no_ack_file_for_zip_correct auditZipKeys auditAckKeys
      true "letters-pdf".data "dvla-response".data).1 (by decide)).2 rfl⟩

/-! ## Stuck-letter alerting -/

/-- Notification channel types. -/
inductive NotificationType
  | email
  | sms
  | letter
deriving DecidableEq, Repr

/-- Modelled from the spec: `is_dvla_working_day` of the external letter
timings utilities — days are numbered so that day 0 is a Monday; a day is a
working day when it is neither a Saturday nor a Sunday (remainder 5 or 6)
nor in the supplied bank-holiday set. -/
def is_dvla_working_day (holidays : List Nat) (d : Nat) : Bool :=
  decide (d % 7 < 5 ∧ d ∉ holidays)

/-- Modelled from the spec: the closest working day strictly before `d`
(0 when none exists). -/
def prev_working_day (holidays : List Nat) : Nat → Nat
  | 0 => 0
  | d + 1 => if is_dvla_working_day holidays d then d else prev_working_day holidays d

/-- Modelled from the spec: `get_dvla_working_day_offset_by` with a negative
offset — step a date backwards by `n` working days, skipping weekends and
bank holidays. -/
def get_dvla_working_day_offset_by (holidays : List Nat) : Nat → Nat → Nat
  | d, 0 => d
  | d, n + 1 => get_dvla_working_day_offset_by holidays (prev_working_day holidays d) n

/-- The notification row view used by the stuck-letter check. -/
structure StuckCheckNotification where
  notificationType : NotificationType
  status : NotificationStatus
  keyType : KeyType
  sentAtDate : Option Nat
deriving DecidableEq, Repr

/-- The stuck-letter query predicate: a letter notification still in the
sending status, sent with a normal key, whose sent date is on or before the
expected-sent-by date (rows without a sent date never match). -/
def stillSendingTooLong (expected : Nat) (n : StuckCheckNotification) : Bool :=
  decide (n.notificationType = NotificationType.letter ∧
      n.status = NotificationStatus.sending ∧ n.keyType = KeyType.normal) &&
    n.sentAtDate.any (fun s => decide (s ≤ expected))

/-- Embedding of `get_letter_notifications_still_sending_when_they_shouldnt_be`
of the nightly tasks: on a non-working day do nothing and return a zero
count; otherwise compute the expected-sent-by date as two working days
before today and count the still-sending normal-key letters sent on or
before it, returning the count and the expected date. -/
def get_letter_notifications_still_sending_when_they_shouldnt_be
    (holidays : List Nat) (today : Nat)
    (notifications : List StuckCheckNotification) : Nat × Option Nat :=
  if ¬ is_dvla_working_day holidays today then
    (0, none)
  else
    let expected_sent_date := get_dvla_working_day_offset_by holidays today 2
    ((notifications.filter (stillSendingTooLong expected_sent_date)).length,
      some expected_sent_date)

/-- Claim C10: the stuck-letter check returns a zero count whenever today is
not a working day; on a working day it counts exactly the letter
notifications with status sending, normal key type and sent date on or
before the expected-sent-by date, which is two working days before today —
in particular a Monday run with no interfering bank holidays uses the
preceding Thursday. -/
theorem get_letter_notifications_still_sending_correct
    (holidays : List Nat) (today : Nat) (ns : List StuckCheckNotification) :
    (is_dvla_working_day holidays today = false →
      get_letter_notifications_still_sending_when_they_shouldnt_be holidays today ns =
        (0, none)) ∧
    (is_dvla_working_day holidays today = true →
      get_letter_notifications_still_sending_when_they_shouldnt_be holidays today ns =
        ((ns.filter (stillSendingTooLong
            (get_dvla_working_day_offset_by holidays today 2))).length,
          some (get_dvla_working_day_offset_by holidays today 2))) ∧
    (today % 7 = 0 → 4 ≤ today → (today - 3) ∉ holidays → (today - 4) ∉ holidays →
      get_dvla_working_day_offset_by holidays today 2 = today - 4 ∧
        (today - 4) % 7 = 3) := by
  refine ⟨?_, ?_, ?_⟩
  · intro hw
    unfold get_letter_notifications_still_sending_when_they_shouldnt_be
    rw [if_pos (by simp [hw])]
  · intro hw
    unfold get_letter_notifications_still_sending_when_they_shouldnt_be
    rw [if_neg (by simp [hw])]
  · intro h0 h4 hh3 hh4
    obtain ⟨k, rfl⟩ : ∃ k, today = k + 4 := ⟨today - 4, by omega⟩
    have hh3' : k + 1 ∉ holidays := by
      have e : k + 4 - 3 = k + 1 := by omega
      rw [e] at hh3
      exact hh3
    have hh4' : k ∉ holidays := by
      have e : k + 4 - 4 = k := by omega
      rw [e] at hh4
      exact hh4
    have w3 : is_dvla_working_day holidays (k + 3) = false := by
      have e : (k + 3) % 7 = 6 := by omega
      simp [is_dvla_working_day, e]
    have w2 : is_dvla_working_day holidays (k + 2) = false := by
      have e : (k + 2) % 7 = 5 := by omega
      simp [is_dvla_working_day, e]
    have w1 : is_dvla_working_day holidays (k + 1) = true := by
      have e : (k + 1) % 7 = 4 := by omega
      simp [is_dvla_working_day, e, hh3']
    have w0 : is_dvla_working_day holidays k = true := by
      have e : k % 7 = 3 := by omega
      simp [is_dvla_working_day, e, hh4']
    have hp1 : prev_working_day holidays (k + 4) = k + 1 := by
      simp [prev_working_day, w3, w2, w1]
    have hp0 : prev_working_day holidays (k + 1) = k := by
      simp [prev_working_day, w0]
    constructor
    · simp only [get_dvla_working_day_offset_by, hp1, hp0]
      omega
    · omega

/-- Witness for claim C10: with no bank holidays, a run on day 7 (a Monday)
uses day 3 (the preceding Thursday) as the expected-sent-by date. -/
theorem get_letter_notifications_still_sending_correct_witness :
    (7 : Nat) % 7 = 0 ∧ (4 : Nat) ≤ 7 ∧
    (7 - 3 : Nat) ∉ ([] : List Nat) ∧ (7 - 4 : Nat) ∉ ([] : List Nat) ∧
    (get_dvla_working_day_offset_by [] 7 2 = 7 - 4 ∧ (7 - 4) % 7 = 3) :=
  ⟨by decide, by decide, by decide, by decide,
    (get_letter_notifications_still_sending_correct [] 7 []).2.2
      (by decide) (by decide) (by decide) (by decide)⟩
